import Mathlib

/-!
Verification development for the session-state synchronization and
optimistic-concurrency subsystem of the jarvis backend.

The definitions below are a shallow embedding of
`backend/app/workflows/mission_notes.py`,
`backend/app/services/session_state.py` and
`backend/app/models/session.py`.

Modelling conventions:
* Python `datetime` values are abstracted to `Nat` timestamps; `None`
  becomes `Option.none`; Python exceptions become `Except.error`.
* Temporal `workflow.execute_activity` either yields the activity result or
  raises once the retry policy is exhausted; it is modelled by an
  environment (`ActivityEnv`) that fixes, for each activity call of a run,
  whether it succeeds with a value or fails with an infrastructure error.
  Each workflow run also returns the trace of activity invocations it
  performed (`Effect`), so that absence of a database write is expressible.
* JSON serialisation round trips (`json.dumps` / `json.loads`, Redis string
  values) are modelled as the identity on the embedded values.
-/

/-- Mission note data structure (`MissionNote` dataclass). -/
structure MissionNote where
  mission_id : String
  note_id : String
  content : String
  version : Nat
  user_id : String
  timestamp : String
deriving DecidableEq, Repr

/-- Request to update a mission note (`UpdateNoteRequest` dataclass). -/
structure UpdateNoteRequest where
  mission_id : String
  note_id : String
  content : String
  expected_version : Nat
  user_id : String
deriving DecidableEq, Repr

/-- Result of a mission note update (`UpdateNoteResult` dataclass). -/
structure UpdateNoteResult where
  success : Bool
  current_version : Nat
  note : Option MissionNote := none
  conflict : Bool := false
  error : Option String := none
deriving DecidableEq, Repr

/-- Infrastructure failure of an activity execution (retry policy
exhausted on transient errors). -/
structure ActivityError where
  msg : String
deriving DecidableEq, Repr

/-- The `fetch_note_version` activity as implemented: the body is a
placeholder (the database fetch is a TODO) that returns `1` for every
note. -/
def fetch_note_version (mission_id : String) (note_id : String) : Nat :=
  1

/-- The `update_note_in_db` activity as implemented: the body is a
placeholder (the optimistic-locking transaction appears only in a comment)
that ignores the database entirely and unconditionally reports success
with `current_version = expected_version + 1`. -/
def update_note_in_db (mission_id : String) (note_id : String)
    (content : String) (expected_version : Nat) (user_id : String) :
    UpdateNoteResult :=
  { success := true
    current_version := expected_version + 1
    note := none
    conflict := false
    error := none }

/-- Activity invocations performed by a workflow run, in order. -/
inductive Effect where
  | fetchVersion (mission_id : String) (note_id : String)
  | writeNote (mission_id : String) (note_id : String) (content : String)
      (expected_version : Nat) (user_id : String)
  | broadcast (mission_id : String) (note_id : String) (version : Nat)
deriving DecidableEq, Repr

/-- Whether an effect is an invocation of the database-write activity. -/
def Effect.isWrite : Effect → Bool
  | Effect.writeNote _ _ _ _ _ => true
  | _ => false

/-- Outcomes of the (at most three) activity executions of one workflow
run: either the value produced by the activity, or the infrastructure
error surfaced once retries are exhausted. -/
structure ActivityEnv where
  fetchOutcome : Except ActivityError Nat
  updateOutcome : Except ActivityError UpdateNoteResult
  broadcastOutcome : Except ActivityError Unit

/-- The `MissionNoteUpdateWorkflow.run` method: fetch the current version,
return a conflict result on mismatch, otherwise run the conditional write
and, on a successful write, broadcast the new version.  An activity error
propagates out of the run (the workflow fails); the second component is
the trace of activity invocations. -/
def MissionNoteUpdateWorkflow.run (env : ActivityEnv)
    (request : UpdateNoteRequest) :
    Except ActivityError UpdateNoteResult × List Effect :=
  let fetchEff := Effect.fetchVersion request.mission_id request.note_id
  match env.fetchOutcome with
  | Except.error e => (Except.error e, [fetchEff])
  | Except.ok current_version =>
    if current_version ≠ request.expected_version then
      (Except.ok
        { success := false
          current_version := current_version
          note := none
          conflict := true
          error := some ("Version mismatch: expected " ++
            toString request.expected_version ++ ", current is " ++
            toString current_version) },
       [fetchEff])
    else
      let writeEff := Effect.writeNote request.mission_id request.note_id
        request.content request.expected_version request.user_id
      match env.updateOutcome with
      | Except.error e => (Except.error e, [fetchEff, writeEff])
      | Except.ok update_result =>
        if update_result.success then
          let bEff := Effect.broadcast request.mission_id request.note_id
            update_result.current_version
          match env.broadcastOutcome with
          | Except.error e => (Except.error e, [fetchEff, writeEff, bEff])
          | Except.ok _ =>
            (Except.ok update_result, [fetchEff, writeEff, bEff])
        else
          (Except.ok update_result, [fetchEff, writeEff])

/-- Lexicographic comparison of character lists by code point; this is the
order Python uses to compare `str` values. -/
def lexLe : List Char → List Char → Bool
  | [], _ => true
  | _ :: _, [] => false
  | a :: as, b :: bs =>
    if a.toNat < b.toNat then true
    else if b.toNat < a.toNat then false
    else lexLe as bs

/-- Python string comparison `a <= b`. -/
def strLe (a b : String) : Bool :=
  lexLe a.data b.data

/-- The sort key used by `MissionNoteConflictResolutionWorkflow`:
`key=lambda x: x.user_id`, compared as Python strings. -/
def reqLe (a b : UpdateNoteRequest) : Prop :=
  strLe a.user_id b.user_id = true

instance : DecidableRel reqLe :=
  fun a b => by unfold reqLe; infer_instance

/-- Python `sorted(l, key=lambda x: x.user_id)`: a stable sort by the key.
Stable sorts with respect to a fixed total preorder agree on every input,
so the stable insertion sort is extensionally the same function as the
Timsort Python uses. -/
def pySortedByUser (l : List UpdateNoteRequest) : List UpdateNoteRequest :=
  List.insertionSort reqLe l

/-- Failure of a conflict-resolution run: either the `IndexError` raised
by `sorted_updates[-1]` on an empty list, or a propagated activity
error. -/
inductive ResolutionError where
  | indexError
  | activity (e : ActivityError)
deriving DecidableEq, Repr

/-- The `MissionNoteConflictResolutionWorkflow.run` method: sort the
conflicting updates by `user_id`, take the last as winner (`[-1]`, an
`IndexError` on an empty list), re-fetch the current version, write the
winner content with the freshly fetched version, and broadcast on
success. -/
def MissionNoteConflictResolutionWorkflow.run (env : ActivityEnv)
    (mission_id : String) (note_id : String)
    (conflicting_updates : List UpdateNoteRequest) :
    Except ResolutionError UpdateNoteResult × List Effect :=
  let sorted_updates := pySortedByUser conflicting_updates
  match sorted_updates.getLast? with
  | none => (Except.error ResolutionError.indexError, [])
  | some final_update =>
    let fetchEff := Effect.fetchVersion mission_id note_id
    match env.fetchOutcome with
    | Except.error e => (Except.error (ResolutionError.activity e), [fetchEff])
    | Except.ok current_version =>
      let writeEff := Effect.writeNote mission_id note_id
        final_update.content current_version final_update.user_id
      match env.updateOutcome with
      | Except.error e =>
        (Except.error (ResolutionError.activity e), [fetchEff, writeEff])
      | Except.ok result =>
        if result.success then
          let bEff := Effect.broadcast mission_id note_id
            result.current_version
          match env.broadcastOutcome with
          | Except.error e =>
            (Except.error (ResolutionError.activity e),
             [fetchEff, writeEff, bEff])
          | Except.ok _ =>
            (Except.ok result, [fetchEff, writeEff, bEff])
        else
          (Except.ok result, [fetchEff, writeEff])

/-- Agent states during a voice session (`AgentState` string enum). -/
inductive AgentState where
  | idle
  | listening
  | thinking
  | speaking
deriving DecidableEq, Repr

/-- The string value of an agent state (`AgentState.value`). -/
def AgentState.value : AgentState → String
  | AgentState.idle => "idle"
  | AgentState.listening => "listening"
  | AgentState.thinking => "thinking"
  | AgentState.speaking => "speaking"

/-- The `AgentState(s)` enum constructor: yields the member with that
value, or fails (`ValueError`) on an unknown string. -/
def parseAgentState (s : String) : Option AgentState :=
  if s = "idle" then some AgentState.idle
  else if s = "listening" then some AgentState.listening
  else if s = "thinking" then some AgentState.thinking
  else if s = "speaking" then some AgentState.speaking
  else none

/-- Session metadata: a Python dict with string keys, insertion ordered.
The JSON values are abstracted to their serialised string form. -/
abbrev Metadata : Type := List (String × String)

/-- Python `d[k]` / `d.get(k)` lookup on a dict. -/
def dictGet (d : Metadata) (k : String) : Option String :=
  match d with
  | [] => none
  | (k1, v) :: rest => if k1 = k then some v else dictGet rest k

/-- Python `old.update(m)`: keys of `m` override the values of existing
keys of `old` in place, and keys of `m` absent from `old` are appended in
the order of `m`. -/
def dictUpdate (old m : Metadata) : Metadata :=
  old.map (fun p =>
    match dictGet m p.1 with
    | some v => (p.1, v)
    | none => p) ++
  m.filter (fun p => (dictGet old p.1).isNone)

/-- Python truthiness of a list or dict value: empty is falsy. -/
def pyOr (l : List α) (dflt : List α) : List α :=
  if l.isEmpty then dflt else l

/-- Complete session state for persistence (`SessionState` dataclass). -/
structure SessionState where
  session_id : String
  user_id : String
  agent_state : AgentState
  is_active : Bool
  last_activity : Nat
  transcript_count : Nat
  metadata : Metadata
  device_ids : List String
deriving DecidableEq, Repr

/-- The field merge performed by `SessionStateService.update_state` on the
fetched state: replace `agent_state` when the argument is present (all
enum members are truthy), shallow-merge `metadata` when present and
non-empty (an empty dict is falsy and skipped), and set `last_activity`
to the current time. -/
def update_state_pure (s : SessionState) (agent_state : Option AgentState)
    (metadata : Option Metadata) (now : Nat) : SessionState :=
  let s1 :=
    match agent_state with
    | some a => { s with agent_state := a }
    | none => s
  let s2 :=
    match metadata with
    | some m => if m.isEmpty then s1 else { s1 with metadata := dictUpdate s1.metadata m }
    | none => s1
  { s2 with last_activity := now }

/-- The mutation performed by `SessionStateService.add_device` on the
fetched state: append the device when absent, otherwise no change. -/
def add_device_pure (s : SessionState) (device_id : String) : SessionState :=
  if device_id ∈ s.device_ids then s
  else { s with device_ids := s.device_ids ++ [device_id] }

/-- The mutation performed by `SessionStateService.remove_device` on the
fetched state: remove the first occurrence of the device when present,
and mark the session inactive exactly when no devices are left. -/
def remove_device_pure (s : SessionState) (device_id : String) : SessionState :=
  if device_id ∈ s.device_ids then
    let ds := s.device_ids.erase device_id
    { s with device_ids := ds, is_active := if ds.isEmpty then false else s.is_active }
  else s

/-- The mutation performed by `SessionStateService.end_session` on the
fetched state: mark inactive and touch `last_activity`, regardless of the
device set. -/
def end_session_pure (s : SessionState) (now : Nat) : SessionState :=
  { s with is_active := false, last_activity := now }

/-- The state-mutating operations of `SessionStateService` on an existing
session. -/
inductive SessionOp where
  | update (agent_state : Option AgentState) (metadata : Option Metadata)
  | addDevice (device_id : String)
  | removeDevice (device_id : String)
  | endSession
deriving DecidableEq

/-- Effect of one service operation on the cached state of an existing
session. -/
def applySessionOp (now : Nat) : SessionOp → SessionState → SessionState
  | SessionOp.update a m, s => update_state_pure s a m now
  | SessionOp.addDevice d, s => add_device_pure s d
  | SessionOp.removeDevice d, s => remove_device_pure s d
  | SessionOp.endSession, s => end_session_pure s now

/-- One queued offline action: the free-form JSON body is abstracted to
`kind`/`payload`, plus the `queued_at` stamp the service writes into the
dict before storing it. -/
structure OfflineAction where
  kind : String
  payload : String
  queued_at : Option Nat := none
deriving DecidableEq, Repr

/-- The Redis key for the offline queue of a session
(`_get_queue_key`). -/
def _get_queue_key (session_id : String) : String :=
  "session:queue:" ++ session_id

/-- The Redis key for the cached state of a session
(`_get_state_key`). -/
def _get_state_key (session_id : String) : String :=
  "session:state:" ++ session_id

/-- The Redis list store holding the per-session offline queues (the
values are the JSON-decoded queued actions; TTLs are not modelled, no
claim observes expiry). -/
structure RedisQueues where
  lists : String → List OfflineAction

/-- `SessionStateService.queue_offline_action`: stamp the action with
`queued_at` and RPUSH its serialisation onto the queue key. -/
def queue_offline_action (st : RedisQueues) (session_id : String)
    (action : OfflineAction) (now : Nat) : RedisQueues :=
  let queue_key := _get_queue_key session_id
  let stamped := { action with queued_at := some now }
  { lists := fun k => if k = queue_key then st.lists k ++ [stamped] else st.lists k }

/-- The first Redis call of `replay_offline_queue`:
`lrange(queue_key, 0, -1)`, reading the whole queue. -/
def replay_read (st : RedisQueues) (session_id : String) : List OfflineAction :=
  st.lists (_get_queue_key session_id)

/-- The second Redis call of `replay_offline_queue`:
`delete(queue_key)`, clearing the queue. -/
def replay_clear (st : RedisQueues) (session_id : String) : RedisQueues :=
  { lists := fun k => if k = _get_queue_key session_id then [] else st.lists k }

/-- `SessionStateService.replay_offline_queue`: read the whole queue,
then delete the key, returning the decoded actions.  The read and the
delete are two separate Redis commands issued in sequence. -/
def replay_offline_queue (st : RedisQueues) (session_id : String) :
    List OfflineAction × RedisQueues :=
  (replay_read st session_id, replay_clear st session_id)

/-- A row of the `session_snapshots` table as written by
`_save_snapshot_to_db`: note that neither `user_id` nor `is_active` nor
`last_activity` is part of a snapshot. -/
structure SessionSnapshotRow where
  session_id : String
  agent_state : String
  transcript_count : Nat
  metadata : Metadata
  device_ids : List String
  created_at : Nat
deriving DecidableEq, Repr

/-- A row of the `voice_sessions` table together with its loaded
`snapshots` relationship. -/
structure VoiceSessionRow where
  id : String
  user_id : String
  is_active : Bool
  metadata : Metadata
  created_at : Nat
  updated_at : Nat
  snapshots : List SessionSnapshotRow
deriving DecidableEq, Repr

/-- `SessionStateService._save_snapshot_to_db`: the snapshot row built
from a state (the `created_at` column defaults to the insertion time). -/
def _save_snapshot_to_db (state : SessionState) (created_at : Nat) :
    SessionSnapshotRow :=
  { session_id := state.session_id
    agent_state := state.agent_state.value
    transcript_count := state.transcript_count
    metadata := state.metadata
    device_ids := state.device_ids
    created_at := created_at }

/-- Python `max(snapshots, key=lambda s: s.created_at)`: the first
element with maximal key (earlier elements win ties). -/
def maxByCreatedAt : List SessionSnapshotRow → Option SessionSnapshotRow
  | [] => none
  | x :: xs =>
    match maxByCreatedAt xs with
    | none => some x
    | some m => if m.created_at > x.created_at then some m else some x

/-- `SessionStateService._load_from_db`, from the point where the session
row was found: rebuild the state from the most recent snapshot (or a
fresh idle state when there is none).  `is_active` and `last_activity`
come from the session row, not from the snapshot; `none` models the
`ValueError` raised by `AgentState` on an unknown stored value. -/
def _load_from_db (session : VoiceSessionRow) : Option SessionState :=
  match maxByCreatedAt session.snapshots with
  | some latest =>
    match parseAgentState latest.agent_state with
    | some a =>
      some
        { session_id := session.id
          user_id := session.user_id
          agent_state := a
          is_active := session.is_active
          last_activity := session.updated_at
          transcript_count := latest.transcript_count
          metadata := pyOr latest.metadata []
          device_ids := pyOr latest.device_ids [] }
    | none => none
  | none =>
    some
      { session_id := session.id
        user_id := session.user_id
        agent_state := AgentState.idle
        is_active := session.is_active
        last_activity := session.updated_at
        transcript_count := 0
        metadata := pyOr session.metadata []
        device_ids := [] }

/-- Concrete update request used to exercise the version-mismatch path
(expected version 0 against a fetched version 1). -/
def reqC2 : UpdateNoteRequest :=
  { mission_id := "M1", note_id := "N1", content := "B"
    expected_version := 0, user_id := "U1" }

/-- Activity outcomes in which every activity succeeds and yields exactly
what the in-repository activity bodies produce. -/
def envC2 : ActivityEnv :=
  { fetchOutcome := Except.ok (fetch_note_version "M1" "N1")
    updateOutcome := Except.ok (update_note_in_db "M1" "N1" "B" 0 "U1")
    broadcastOutcome := Except.ok () }

/-- Concrete update request whose expected version matches the fetched
version, so that the conditional write commits. -/
def reqC4 : UpdateNoteRequest :=
  { mission_id := "M1", note_id := "N1", content := "A"
    expected_version := 1, user_id := "U1" }

/-- The infrastructure error surfaced when the broadcast activity
exhausts its retries. -/
def errBroadcast : ActivityError :=
  { msg := "broadcast retries exhausted" }

/-- Activity outcomes in which fetch and conditional write succeed with
the in-repository activity results but the broadcast activity exhausts
its retries. -/
def envC4 : ActivityEnv :=
  { fetchOutcome := Except.ok (fetch_note_version "M1" "N1")
    updateOutcome := Except.ok (update_note_in_db "M1" "N1" "A" 1 "U1")
    broadcastOutcome := Except.error errBroadcast }

/-- Conflicting pending edit by user `"userB"`. -/
def rqW1 : UpdateNoteRequest :=
  { mission_id := "M1", note_id := "N1", content := "contentB"
    expected_version := 0, user_id := "userB" }

/-- Conflicting pending edit by user `"userA"`. -/
def rqW2 : UpdateNoteRequest :=
  { mission_id := "M1", note_id := "N1", content := "contentA"
    expected_version := 2, user_id := "userA" }

/-- A concrete list of two conflicting pending edits. -/
def lC3 : List UpdateNoteRequest := [rqW1, rqW2]

/-- Activity outcomes for the conflict-resolution run: the authoritative
version fetched fresh is 7. -/
def envC3 : ActivityEnv :=
  { fetchOutcome := Except.ok 7
    updateOutcome := Except.ok (update_note_in_db "M1" "N1" "contentB" 7 "userB")
    broadcastOutcome := Except.ok () }

/-- A Redis store with every queue empty. -/
def emptyQueues : RedisQueues :=
  { lists := fun _ => [] }

/-- A first concrete offline action. -/
def actA1 : OfflineAction := { kind := "transcript", payload := "p1" }

/-- A second concrete offline action. -/
def actA2 : OfflineAction := { kind := "note", payload := "p2" }

/-- A concrete offline action enqueued concurrently with a drain. -/
def actQ : OfflineAction := { kind := "touch", payload := "p3" }

/-- A concrete active session state holding one device. -/
def sC7 : SessionState :=
  { session_id := "S1", user_id := "U1", agent_state := AgentState.idle
    is_active := true, last_activity := 0, transcript_count := 0
    metadata := [], device_ids := ["D1"] }

/-- A concrete session state that is inactive with an empty device set,
as left behind by removing the last device. -/
def sC9 : SessionState :=
  { session_id := "S1", user_id := "U1", agent_state := AgentState.listening
    is_active := false, last_activity := 10, transcript_count := 3
    metadata := [("k", "v")], device_ids := [] }

/-- The session row of `sC9` holding the snapshot serialised from `sC9`:
the row itself is still marked active and carries its own update time. -/
def rowC9 : VoiceSessionRow :=
  { id := "S1", user_id := "U1", is_active := true, metadata := []
    created_at := 0, updated_at := 99, snapshots := [_save_snapshot_to_db sC9 50] }

/-- A session row of `sC9` that happens to agree with the state on
`is_active`; its update time still differs from `last_activity`. -/
def rowC9w : VoiceSessionRow :=
  { id := "S1", user_id := "U1", is_active := false, metadata := []
    created_at := 0, updated_at := 42, snapshots := [_save_snapshot_to_db sC9 50] }

/-- The lexicographic comparison is reflexive. -/
theorem lexLe_refl (as : List Char) : lexLe as as = true := by
  induction as with
  | nil => rfl
  | cons a as ih => simp [lexLe, ih]

/-- The lexicographic comparison is total. -/
theorem lexLe_total (as : List Char) : ∀ bs, lexLe as bs = true ∨ lexLe bs as = true := by
  induction as with
  | nil => intro bs; left; rfl
  | cons a as ih =>
    intro bs
    cases bs with
    | nil => right; rfl
    | cons b bs =>
      rcases Nat.lt_trichotomy a.toNat b.toNat with h | h | h
      · left; simp [lexLe, h]
      · rcases ih bs with h2 | h2
        · left; simp [lexLe, h, h2]
        · right; simp [lexLe, h, h2]
      · right; simp [lexLe, h]

/-- The lexicographic comparison is transitive. -/
theorem lexLe_trans (as : List Char) :
    ∀ bs cs, lexLe as bs = true → lexLe bs cs = true → lexLe as cs = true := by
  induction as with
  | nil => intro bs cs _ _; rfl
  | cons a as ih =>
    intro bs cs h1 h2
    cases bs with
    | nil => simp [lexLe] at h1
    | cons b bs =>
      cases cs with
      | nil => simp [lexLe] at h2
      | cons c cs =>
        simp only [lexLe] at h1 h2 ⊢
        rcases Nat.lt_trichotomy a.toNat b.toNat with hab | hab | hab
        · rcases Nat.lt_trichotomy b.toNat c.toNat with hbc | hbc | hbc
          · rw [if_pos (by omega)]
          · rw [if_pos (by omega)]
          · rw [if_neg (by omega), if_pos (by omega)] at h2
            exact absurd h2 (by simp)
        · rcases Nat.lt_trichotomy b.toNat c.toNat with hbc | hbc | hbc
          · rw [if_pos (by omega)]
          · rw [if_neg (by omega), if_neg (by omega)] at h1
            rw [if_neg (by omega), if_neg (by omega)] at h2
            rw [if_neg (by omega), if_neg (by omega)]
            exact ih bs cs h1 h2
          · rw [if_neg (by omega), if_pos (by omega)] at h2
            exact absurd h2 (by simp)
        · rw [if_neg (by omega), if_pos (by omega)] at h1
          exact absurd h1 (by simp)

/-- The sort relation on update requests is reflexive. -/
theorem reqLe_refl (a : UpdateNoteRequest) : reqLe a a :=
  lexLe_refl a.user_id.data

/-- The sort relation on update requests is total. -/
theorem reqLe_total (a b : UpdateNoteRequest) : reqLe a b ∨ reqLe b a :=
  lexLe_total a.user_id.data b.user_id.data

/-- The sort relation on update requests is transitive. -/
theorem reqLe_trans (a b c : UpdateNoteRequest) :
    reqLe a b → reqLe b c → reqLe a c :=
  lexLe_trans a.user_id.data b.user_id.data c.user_id.data

/-- The last element of a list is a member of the list. -/
theorem getLast_mem_of_eq_some {α : Type} :
    ∀ (l : List α) (w : α), l.getLast? = some w → w ∈ l := by
  intro l
  induction l with
  | nil => intro w h; simp at h
  | cons a l ih =>
    intro w h
    cases l with
    | nil =>
      simp only [List.getLast?_singleton, Option.some.injEq] at h
      simp [h]
    | cons b l =>
      rw [List.getLast?_cons_cons] at h
      exact List.mem_cons_of_mem a (ih w h)

/-- In a list sorted by a reflexive relation, every element is related to
the last element. -/
theorem sorted_getLast_ge {α : Type} {r : α → α → Prop} (hrefl : ∀ a, r a a) :
    ∀ (l : List α), List.Sorted r l → ∀ w, l.getLast? = some w →
      ∀ x ∈ l, r x w := by
  intro l
  induction l with
  | nil => intro _ w _ x hx; simp at hx
  | cons a l ih =>
    intro hs w hw x hx
    rw [List.sorted_cons] at hs
    cases l with
    | nil =>
      simp only [List.getLast?_singleton, Option.some.injEq] at hw
      simp only [List.mem_singleton] at hx
      subst hw; subst hx; exact hrefl x
    | cons b l =>
      rw [List.getLast?_cons_cons] at hw
      rcases List.mem_cons.mp hx with hxa | hxl
      · subst hxa
        exact hs.1 w (getLast_mem_of_eq_some _ w hw)
      · exact ih hs.2 w hw x hxl

/-- The winner selected by the conflict-resolution sort is maximal for
the ordering key among all conflicting updates. -/
theorem pySorted_winner_max (l : List UpdateNoteRequest) (w : UpdateNoteRequest)
    (hw : (pySortedByUser l).getLast? = some w) :
    ∀ r ∈ l, strLe r.user_id w.user_id = true := by
  have hs : List.Sorted reqLe (pySortedByUser l) :=
    @List.sorted_insertionSort _ reqLe _ ⟨reqLe_total⟩ ⟨reqLe_trans⟩ l
  intro x hx
  have hx2 : x ∈ pySortedByUser l :=
    ((List.perm_insertionSort reqLe l).mem_iff).mpr hx
  exact sorted_getLast_ge reqLe_refl _ hs w hw x hx2

/-- C1: the claim states that a successful conditional write advances the
version by exactly 1 over the authoritative stored version and succeeds
only when the authoritative version still equals `expected_version` at
write time.  The implemented activity refutes this: it takes no input
from the store at all, reports success for every request, and sets
`current_version` to `expected_version + 1`; in particular, for a request
carrying `expected_version = 3` it reports a successful write with
version 4 whatever the authoritative version is. -/
theorem update_note_in_db_unconditional :
    (∀ m n c ev u, update_note_in_db m n c ev u =
      { success := true, current_version := ev + 1, note := none
        conflict := false, error := none }) ∧
    update_note_in_db "M1" "N1" "A" 3 "U1" =
      { success := true, current_version := 4, note := none
        conflict := false, error := none } :=
  ⟨fun _ _ _ _ _ => rfl, rfl⟩

/-- C2: when the fetched version differs from the expected version of the
request, the update workflow returns a conflict result carrying the
fetched version, and the only activity it invoked is the version fetch —
no write is performed. -/
theorem version_mismatch_conflict (env : ActivityEnv)
    (request : UpdateNoteRequest) (v : Nat)
    (hf : env.fetchOutcome = Except.ok v)
    (hne : v ≠ request.expected_version) :
    MissionNoteUpdateWorkflow.run env request =
      (Except.ok
        { success := false, current_version := v, note := none
          conflict := true
          error := some ("Version mismatch: expected " ++
            toString request.expected_version ++ ", current is " ++ toString v) },
       [Effect.fetchVersion request.mission_id request.note_id]) ∧
    ∀ e ∈ (MissionNoteUpdateWorkflow.run env request).2, e.isWrite = false := by
  have h1 : MissionNoteUpdateWorkflow.run env request =
      (Except.ok
        { success := false, current_version := v, note := none
          conflict := true
          error := some ("Version mismatch: expected " ++
            toString request.expected_version ++ ", current is " ++ toString v) },
       [Effect.fetchVersion request.mission_id request.note_id]) := by
    simp [MissionNoteUpdateWorkflow.run, hf, hne]
  refine ⟨h1, ?_⟩
  rw [h1]
  intro e he
  simp only [List.mem_singleton] at he
  subst he
  rfl

/-- Witness for C2 at a concrete input: expected version 0 against the
fetched version 1 of the placeholder fetch activity. -/
theorem version_mismatch_conflict_witness :
    (MissionNoteUpdateWorkflow.run envC2 reqC2 =
      (Except.ok
        { success := false, current_version := 1, note := none
          conflict := true
          error := some ("Version mismatch: expected " ++
            toString reqC2.expected_version ++ ", current is " ++ toString 1) },
       [Effect.fetchVersion reqC2.mission_id reqC2.note_id]) ∧
    ∀ e ∈ (MissionNoteUpdateWorkflow.run envC2 reqC2).2, e.isWrite = false) :=
  version_mismatch_conflict envC2 reqC2 1 rfl (by decide)

/-- C4 counterexample: with the conditional write committed and the
broadcast activity failing after exhausting retries, the workflow does
not report any result object at all — the broadcast error propagates and
the run fails exactly like an ordinary failure — even though the write
was invoked and is never undone. -/
theorem broadcast_failure_not_reported :
    (MissionNoteUpdateWorkflow.run envC4 reqC4).1 = Except.error errBroadcast ∧
    (MissionNoteUpdateWorkflow.run envC4 reqC4).1.isOk = false ∧
    Effect.writeNote "M1" "N1" "A" 1 "U1" ∈ (MissionNoteUpdateWorkflow.run envC4 reqC4).2 := by
  refine ⟨rfl, rfl, ?_⟩
  decide

/-- C4 amended: when the conditional write commits and the broadcast
step fails after exhausting retries, the committed write is not rolled
back (its invocation remains in the trace and no compensating step
exists), but the workflow propagates the broadcast error as its own
failure instead of reporting a distinct committed-but-not-broadcast
result. -/
theorem committed_write_broadcast_failure (env : ActivityEnv)
    (request : UpdateNoteRequest) (u : UpdateNoteResult) (e : ActivityError)
    (hf : env.fetchOutcome = Except.ok request.expected_version)
    (hu : env.updateOutcome = Except.ok u)
    (hs : u.success = true)
    (hb : env.broadcastOutcome = Except.error e) :
    MissionNoteUpdateWorkflow.run env request =
      (Except.error e,
       [Effect.fetchVersion request.mission_id request.note_id,
        Effect.writeNote request.mission_id request.note_id request.content
          request.expected_version request.user_id,
        Effect.broadcast request.mission_id request.note_id u.current_version]) ∧
    Effect.writeNote request.mission_id request.note_id request.content
        request.expected_version request.user_id ∈
      (MissionNoteUpdateWorkflow.run env request).2 := by
  have h1 : MissionNoteUpdateWorkflow.run env request =
      (Except.error e,
       [Effect.fetchVersion request.mission_id request.note_id,
        Effect.writeNote request.mission_id request.note_id request.content
          request.expected_version request.user_id,
        Effect.broadcast request.mission_id request.note_id u.current_version]) := by
    simp [MissionNoteUpdateWorkflow.run, hf, hu, hs, hb]
  refine ⟨h1, ?_⟩
  rw [h1]
  simp

/-- Witness for the amended C4 at a concrete input: the committed stub
write result (version 2) and a broadcast that exhausts retries. -/
theorem committed_write_broadcast_failure_witness :
    MissionNoteUpdateWorkflow.run envC4 reqC4 =
      (Except.error errBroadcast,
       [Effect.fetchVersion reqC4.mission_id reqC4.note_id,
        Effect.writeNote reqC4.mission_id reqC4.note_id reqC4.content
          reqC4.expected_version reqC4.user_id,
        Effect.broadcast reqC4.mission_id reqC4.note_id 2]) ∧
    Effect.writeNote reqC4.mission_id reqC4.note_id reqC4.content
        reqC4.expected_version reqC4.user_id ∈
      (MissionNoteUpdateWorkflow.run envC4 reqC4).2 :=
  committed_write_broadcast_failure envC4 reqC4
    (update_note_in_db "M1" "N1" "A" 1 "U1") errBroadcast rfl rfl rfl rfl

/-- C10: invoked with an empty list of conflicting updates, the
conflict-resolution workflow fails with the index error raised while
selecting the winner (the `[-1]` access on the empty sorted list), before
any activity is invoked, instead of returning a result object. -/
theorem empty_conflict_list_index_error (env : ActivityEnv) (m n : String) :
    MissionNoteConflictResolutionWorkflow.run env m n [] =
      (Except.error ResolutionError.indexError, []) :=
  rfl

/-- C3: on a non-empty list of conflicting pending edits, the
conflict-resolution workflow invokes the conditional-write activity
exactly once, for the single winner determined by the sort on the
`user_id` ordering key (the winner key is maximal among all candidates),
and the expected version passed to that write is the freshly fetched
authoritative version, not the stale `expected_version` of any request. -/
theorem conflict_resolution_single_winner (env : ActivityEnv) (m n : String)
    (l : List UpdateNoteRequest) (w : UpdateNoteRequest) (v : Nat)
    (hw : (pySortedByUser l).getLast? = some w)
    (hf : env.fetchOutcome = Except.ok v) :
    (MissionNoteConflictResolutionWorkflow.run env m n l).2.filter Effect.isWrite =
      [Effect.writeNote m n w.content v w.user_id] ∧
    (∀ r ∈ l, strLe r.user_id w.user_id = true) := by
  refine ⟨?_, pySorted_winner_max l w hw⟩
  simp only [MissionNoteConflictResolutionWorkflow.run, hw, hf]
  rcases hup : env.updateOutcome with e | result
  · simp [List.filter, Effect.isWrite]
  · by_cases hs : result.success
    · rcases hbr : env.broadcastOutcome with e2 | u2
      · simp [hs, List.filter, Effect.isWrite]
      · simp [hs, List.filter, Effect.isWrite]
    · simp [hs, List.filter, Effect.isWrite]

/-- Witness for C3 at a concrete input: among the two conflicting edits
of `"userA"` and `"userB"`, the edit of `"userB"` wins and is written
with the freshly fetched version 7. -/
theorem conflict_resolution_single_winner_witness :
    ((MissionNoteConflictResolutionWorkflow.run envC3 "M1" "N1" lC3).2.filter Effect.isWrite =
      [Effect.writeNote "M1" "N1" rqW1.content 7 rqW1.user_id] ∧
    (∀ r ∈ lC3, strLe r.user_id rqW1.user_id = true)) :=
  conflict_resolution_single_winner envC3 "M1" "N1" lC3 rqW1 7 (by decide) rfl

/-- C5: starting from an empty queue, enqueueing two actions and then
draining returns exactly the two recorded actions in enqueue order, and
a second drain on the same session returns the empty list. -/
theorem offline_queue_fifo (st : RedisQueues) (s : String)
    (a1 a2 : OfflineAction) (t1 t2 : Nat)
    (h : st.lists (_get_queue_key s) = []) :
    (replay_offline_queue (queue_offline_action (queue_offline_action st s a1 t1) s a2 t2) s).1 =
      [{ a1 with queued_at := some t1 }, { a2 with queued_at := some t2 }] ∧
    (replay_offline_queue
      ((replay_offline_queue (queue_offline_action (queue_offline_action st s a1 t1) s a2 t2) s).2) s).1 = [] := by
  constructor
  · simp [replay_offline_queue, replay_read, queue_offline_action, h]
  · simp [replay_offline_queue, replay_read, replay_clear]

/-- Witness for C5 at a concrete input: two actions enqueued at times 1
and 2 into an empty store. -/
theorem offline_queue_fifo_witness :
    ((replay_offline_queue (queue_offline_action (queue_offline_action emptyQueues "S1" actA1 1) "S1" actA2 2) "S1").1 =
      [{ actA1 with queued_at := some 1 }, { actA2 with queued_at := some 2 }] ∧
    (replay_offline_queue
      ((replay_offline_queue (queue_offline_action (queue_offline_action emptyQueues "S1" actA1 1) "S1" actA2 2) "S1").2) "S1").1 = []) :=
  offline_queue_fifo emptyQueues "S1" actA1 actA2 1 2 rfl

/-- C6 counterexample: the drain is two separate Redis commands, and an
action enqueued between its read and its clear is lost — it was recorded
in the queue, yet it is neither in the drain result (the read preceded
the enqueue) nor in the queue afterwards (the clear deleted it). -/
theorem replay_interleaved_enqueue_lost :
    replay_read emptyQueues "S1" = [] ∧
    (queue_offline_action emptyQueues "S1" actQ 7).lists (_get_queue_key "S1") =
      [{ actQ with queued_at := some 7 }] ∧
    (replay_clear (queue_offline_action emptyQueues "S1" actQ 7) "S1").lists (_get_queue_key "S1") = [] ∧
    { actQ with queued_at := some 7 } ∉ replay_read emptyQueues "S1" ∧
    { actQ with queued_at := some 7 } ∉
      (replay_clear (queue_offline_action emptyQueues "S1" actQ 7) "S1").lists (_get_queue_key "S1") := by
  decide

/-- C6 amended: the drain reads and then clears the queue in two separate
steps rather than one atomic operation.  Run without interleaving, the
two steps lose and duplicate nothing: the drain returns exactly the queue
content and leaves the queue empty.  But an action enqueued between the
read and the clear of a drain is lost: it appears neither in the drain
result nor in the queue after the clear. -/
theorem replay_drain_boundary (st : RedisQueues) (s : String)
    (a : OfflineAction) (t : Nat)
    (h : { a with queued_at := some t } ∉ st.lists (_get_queue_key s)) :
    ((replay_offline_queue st s).1 = st.lists (_get_queue_key s) ∧
     (replay_offline_queue st s).2.lists (_get_queue_key s) = []) ∧
    ({ a with queued_at := some t } ∉ replay_read st s ∧
     { a with queued_at := some t } ∉
       (replay_clear (queue_offline_action st s a t) s).lists (_get_queue_key s)) := by
  refine ⟨⟨rfl, ?_⟩, h, ?_⟩
  · simp [replay_offline_queue, replay_clear]
  · simp [replay_clear]

/-- Witness for the amended C6 at a concrete input. -/
theorem replay_drain_boundary_witness :
    (((replay_offline_queue emptyQueues "S1").1 = emptyQueues.lists (_get_queue_key "S1") ∧
     (replay_offline_queue emptyQueues "S1").2.lists (_get_queue_key "S1") = []) ∧
    ({ actQ with queued_at := some 7 } ∉ replay_read emptyQueues "S1" ∧
     { actQ with queued_at := some 7 } ∉
       (replay_clear (queue_offline_action emptyQueues "S1" actQ 7) "S1").lists (_get_queue_key "S1"))) :=
  replay_drain_boundary emptyQueues "S1" actQ 7 (by decide)

/-- The field merge of `update_state` never touches `is_active`. -/
theorem update_state_pure_is_active (s : SessionState) (a : Option AgentState)
    (m : Option Metadata) (now : Nat) :
    (update_state_pure s a m now).is_active = s.is_active := by
  cases a <;> cases m <;> simp only [update_state_pure] <;> (try split) <;> rfl

/-- Adding a device never touches `is_active`. -/
theorem add_device_pure_is_active (s : SessionState) (d : String) :
    (add_device_pure s d).is_active = s.is_active := by
  simp only [add_device_pure]
  split <;> rfl

/-- C7 counterexample: `end_session` also sets `is_active` to false, on a
state whose device set is not empty — so deactivation does not happen
only through `remove_device` emptying the device set. -/
theorem end_session_deactivates_nonempty :
    sC7.is_active = true ∧
    (applySessionOp 5 SessionOp.endSession sC7).is_active = false ∧
    (applySessionOp 5 SessionOp.endSession sC7).device_ids = ["D1"] := by
  decide

/-- C7 amended: among the service operations on an existing session,
`is_active` drops from true to false only when `remove_device` removes a
present device leaving the device set empty, or when `end_session` runs
(which deactivates regardless of the devices); `update_state` never
changes `is_active` at all — in particular it never re-asserts it. -/
theorem is_active_deactivation :
    (∀ (s : SessionState) (op : SessionOp) (now : Nat),
      s.is_active = true → (applySessionOp now op s).is_active = false →
      (∃ d, op = SessionOp.removeDevice d ∧
        (applySessionOp now op s).device_ids = []) ∨
      op = SessionOp.endSession) ∧
    (∀ (s : SessionState) (a : Option AgentState) (m : Option Metadata) (now : Nat),
      (applySessionOp now (SessionOp.update a m) s).is_active = s.is_active) := by
  constructor
  · intro s op now hact hres
    cases op with
    | update a m =>
      rw [applySessionOp, update_state_pure_is_active, hact] at hres
      exact absurd hres (by simp)
    | addDevice d =>
      rw [applySessionOp, add_device_pure_is_active, hact] at hres
      exact absurd hres (by simp)
    | removeDevice d =>
      left
      refine ⟨d, rfl, ?_⟩
      rw [applySessionOp] at hres ⊢
      unfold remove_device_pure at hres ⊢
      by_cases hmem : d ∈ s.device_ids
      · rw [if_pos hmem] at hres ⊢
        simp only at hres ⊢
        by_cases hemp : (s.device_ids.erase d).isEmpty
        · exact List.isEmpty_iff.mp hemp
        · rw [if_neg hemp, hact] at hres
          exact absurd hres (by simp)
      · rw [if_neg hmem, hact] at hres
        exact absurd hres (by simp)
    | endSession => right; rfl
  · intro s a m now
    exact update_state_pure_is_active s a m now

/-- Witness for the amended C7 at a concrete input: removing the only
device of an active session deactivates it with an empty device set. -/
theorem is_active_deactivation_witness :
    ((∃ d, SessionOp.removeDevice "D1" = SessionOp.removeDevice d ∧
      (applySessionOp 5 (SessionOp.removeDevice "D1") sC7).device_ids = []) ∨
     SessionOp.removeDevice "D1" = SessionOp.endSession) :=
  is_active_deactivation.1 sC7 (SessionOp.removeDevice "D1") 5 rfl (by decide)

/-- Lookup distributes over list concatenation of dict entries. -/
theorem dictGet_append (l1 l2 : Metadata) (k : String) :
    dictGet (l1 ++ l2) k =
      match dictGet l1 k with
      | some v => some v
      | none => dictGet l2 k := by
  induction l1 with
  | nil => rfl
  | cons p l1 ih =>
    by_cases hk : p.1 = k
    · simp [dictGet, hk]
    · simp [dictGet, hk, ih]

/-- Lookup in the overridden copy of the existing entries: an existing
key keeps its value unless the update dict carries that key. -/
theorem dictGet_map_override (old m : Metadata) (k : String) :
    dictGet (old.map (fun p =>
      match dictGet m p.1 with
      | some v => (p.1, v)
      | none => p)) k =
      match dictGet old k with
      | none => none
      | some v =>
        match dictGet m k with
        | some v2 => some v2
        | none => some v := by
  induction old with
  | nil => rfl
  | cons p old ih =>
    by_cases hk : p.1 = k
    · subst hk
      cases hm : dictGet m p.1 <;> simp [dictGet, hm]
    · cases hm : dictGet m p.1 <;> simp [dictGet, hm, hk, ih]

/-- Lookup in the appended fresh entries: a key of the update dict that
is absent from the existing dict keeps its updated value. -/
theorem dictGet_filter_isNone (old m : Metadata) (k : String) :
    dictGet (m.filter (fun p => (dictGet old p.1).isNone)) k =
      match dictGet old k with
      | none => dictGet m k
      | some _ => none := by
  induction m with
  | nil => cases dictGet old k <;> rfl
  | cons p m ih =>
    by_cases hk : p.1 = k
    · subst hk
      cases h : dictGet old p.1 <;> simp [List.filter, dictGet, h, ih]
    · cases h : dictGet old p.1 <;> cases h3 : dictGet old k <;>
        simp [List.filter, dictGet, h, h3, hk, ih]

/-- Shallow-merge semantics of `dict.update`: a key of the update dict
takes its updated value, any other key keeps its existing value. -/
theorem dictGet_dictUpdate (old m : Metadata) (k : String) :
    dictGet (dictUpdate old m) k =
      match dictGet m k with
      | some v => some v
      | none => dictGet old k := by
  unfold dictUpdate
  rw [dictGet_append, dictGet_map_override, dictGet_filter_isNone]
  cases h1 : dictGet old k <;> cases h2 : dictGet m k <;> simp

/-- C8: `update_state` replaces `agent_state` exactly when one is
provided, shallow-merges the provided metadata keys into the existing
metadata map, sets `last_activity` to the current time, and leaves
`session_id`, `user_id`, `is_active`, `transcript_count` and `device_ids`
unchanged. -/
theorem update_state_merge (s : SessionState) (a : Option AgentState)
    (m : Option Metadata) (now : Nat) :
    (update_state_pure s a m now).agent_state = a.getD s.agent_state ∧
    (∀ k, dictGet (update_state_pure s a m now).metadata k =
      match m with
      | some mm =>
        match dictGet mm k with
        | some v => some v
        | none => dictGet s.metadata k
      | none => dictGet s.metadata k) ∧
    (update_state_pure s a m now).last_activity = now ∧
    (update_state_pure s a m now).session_id = s.session_id ∧
    (update_state_pure s a m now).user_id = s.user_id ∧
    (update_state_pure s a m now).is_active = s.is_active ∧
    (update_state_pure s a m now).transcript_count = s.transcript_count ∧
    (update_state_pure s a m now).device_ids = s.device_ids := by
  refine ⟨?_, ?_, ?_, ?_, ?_, ?_, ?_, ?_⟩
  case refine_2 =>
    intro k
    cases a <;> cases m with
    | none => simp [update_state_pure]
    | some mm =>
      cases mm with
      | nil => simp [update_state_pure, dictGet]
      | cons p mm =>
        simp only [update_state_pure, List.isEmpty_cons, Bool.false_eq_true,
          if_false, dictGet_dictUpdate]
  all_goals cases a <;> cases m <;>
    simp only [update_state_pure, Option.getD] <;> (try split) <;> rfl

/-- Parsing the stored string value of an agent state recovers the
state. -/
theorem parseAgentState_value (a : AgentState) :
    parseAgentState a.value = some a := by
  cases a <;> rfl

/-- Python `l or []` is the identity on a list value. -/
theorem pyOr_nil {α : Type} (l : List α) : pyOr l [] = l := by
  cases l <;> rfl

/-- C9 counterexample: a snapshot does not record `is_active` or
`last_activity`, so reconstructing a state from its own freshly saved
snapshot can disagree with the original: here the original is inactive
with `last_activity = 10`, while the reconstruction takes `is_active`
and the activity time from the session row (`true` and `99`). -/
theorem snapshot_roundtrip_counterexample :
    rowC9.snapshots = [_save_snapshot_to_db sC9 50] ∧
    _load_from_db rowC9 ≠ some sC9 ∧
    Option.map SessionState.is_active (_load_from_db rowC9) = some true ∧
    sC9.is_active = false := by
  refine ⟨rfl, by decide, rfl, rfl⟩

/-- C9 amended: reconstructing a state from its serialised snapshot
restores `agent_state`, `transcript_count`, `metadata` and `device_ids`
field-for-field, and `session_id` and `user_id` whenever the snapshot is
attached to the session row of the state itself; `is_active` and `last_activity`
are not part of the snapshot representation and are instead taken from
the session row (`row.is_active`, `row.updated_at`), so they round-trip
only when the row agrees with the state. -/
theorem snapshot_roundtrip_fields (state : SessionState)
    (row : VoiceSessionRow) (t : Nat)
    (hsn : row.snapshots = [_save_snapshot_to_db state t])
    (hid : row.id = state.session_id)
    (hu : row.user_id = state.user_id) :
    _load_from_db row =
      some { state with is_active := row.is_active
                        last_activity := row.updated_at } := by
  simp only [_load_from_db, hsn, maxByCreatedAt, _save_snapshot_to_db,
    parseAgentState_value, pyOr_nil, hid, hu]

/-- Witness for the amended C9 at a concrete input: a row agreeing with
the state on identity fields; the reconstruction restores everything the
snapshot carries and takes `is_active` and `last_activity` from the
row. -/
theorem snapshot_roundtrip_fields_witness :
    _load_from_db rowC9w =
      some { sC9 with is_active := rowC9w.is_active
                      last_activity := rowC9w.updated_at } :=
  snapshot_roundtrip_fields sC9 rowC9w 50 rfl rfl rfl
